import Mathlib

/-!
Verification development for the MusicalConductor `SequenceOrchestrator`
(src/modules/communication/sequences/orchestration/SequenceOrchestrator.ts).

The orchestrator's collaborators (EventBus, SequenceRegistry, ExecutionQueue,
SequenceExecutor, StatisticsManager, SequenceValidator, SequenceUtilities,
ResourceDelegator) are imported as types only in the source file; their
behaviour is modelled from the specification (spec.md sections 4.1-4.8) and
each such definition carries a doc comment saying so. Everything named after
a source symbol (`startSequence`, `processSequenceQueue`,
`createSequenceRequest`, `createExecutionContext`, `handleDuplicateSequence`,
`checkResourceConflicts`, `extractOrchestrationMetadata`,
`emitSequenceQueuedEvent` inlined, `generateRequestId`) is translated
directly from the TypeScript.

Nondeterministic inputs of the source (Date.now / performance.now,
Math.random, the delegator's verdict, the executor's outcome) are passed in
explicitly through an `Env` record and oracle functions. Console logging is
not modelled. Bus emissions and other externally visible effects are
recorded in an explicit action trace.
-/

namespace MusicalConductor

/-- Priority levels of a sequence request (SequenceTypes: SEQUENCE_PRIORITIES). -/
inductive SequencePriority where
  | HIGH
  | NORMAL
  | CHAINED
deriving DecidableEq, Repr

/-- Resolution values of `ResourceConflictResult` in the source:
"ALLOW" | "REJECT" | "QUEUE". -/
inductive Resolution where
  | ALLOW
  | REJECT
  | QUEUE
deriving DecidableEq, Repr

/-- Conflict type of `ResourceConflictResult`: "SAME_RESOURCE" | "NONE". -/
inductive ConflictType where
  | SAME_RESOURCE
  | NONE
deriving DecidableEq, Repr

/-- `ResourceConflictResult` as declared in the source file. -/
structure ResourceConflictResult where
  hasConflict : Bool
  conflictType : ConflictType
  resolution : Resolution
  message : String
deriving DecidableEq, Repr

/-- Values stored in a `Record<string, any>` data object. Enough constructors
for the shapes the orchestrator actually stores: strings, numbers, booleans,
and the nested `conflictResult` object. -/
inductive Value where
  | vStr : String → Value
  | vInt : Int → Value
  | vBool : Bool → Value
  | vConflict : ResourceConflictResult → Value
deriving DecidableEq, Repr

/-- A JavaScript object `Record<string, any>` as an association list. -/
abbrev RecordData := List (String × Value)

/-- First-match key lookup in a record. -/
def lookupKey : RecordData → String → Option Value
  | [], _ => none
  | p :: rest, k => if p.1 = k then some p.2 else lookupKey rest k

/-- Overwrite key `k` with value `v` (the effect of `{...m, k: v}` spread
observed through `lookupKey`). -/
def setKey : RecordData → String → Value → RecordData
  | [], k, v => [(k, v)]
  | p :: rest, k, v => if p.1 = k then setKey rest k v else p :: setKey rest k v

/-- Modelled from the spec: a registered sequence. Only its presence in the
registry (and identity) is observed by the orchestrator, which passes it
opaquely to the executor; no field beyond the name is needed. -/
structure MusicalSequence where
  name : String
deriving DecidableEq, Repr

/-- Modelled from the spec (4.2): the registry's name-to-sequence map. -/
abbrev Registry := List (String × MusicalSequence)

/-- Modelled from the spec (4.2): `SequenceRegistry.get(name)`. -/
def registryGet : Registry → String → Option MusicalSequence
  | [], _ => none
  | p :: rest, k => if p.1 = k then some p.2 else registryGet rest k

/-- `SequenceRequest` (SequenceTypes), with the fields the orchestrator
creates: name, merged data, priority, request id, queue timestamp. -/
structure SequenceRequest where
  sequenceName : String
  data : RecordData
  priority : SequencePriority
  requestId : String
  queuedAt : Nat
deriving DecidableEq, Repr

/-- Modelled from the spec (4.6): the `ExecutionQueue` priority bands.
HIGH requests form the front band; CHAINED is placed at the head of the
NORMAL band so the drainer picks it next. -/
structure ExecutionQueue where
  high : List SequenceRequest
  normal : List SequenceRequest
deriving DecidableEq, Repr

/-- Modelled from the spec (4.6): enqueue orders within a band by arrival;
CHAINED goes to the head of NORMAL. -/
def ExecutionQueue.enqueue (q : ExecutionQueue) (r : SequenceRequest) : ExecutionQueue :=
  match r.priority with
  | SequencePriority.HIGH => { q with high := q.high ++ [r] }
  | SequencePriority.NORMAL => { q with normal := q.normal ++ [r] }
  | SequencePriority.CHAINED => { q with normal := r :: q.normal }

/-- Modelled from the spec (4.6): dequeue returns the highest non-empty band. -/
def ExecutionQueue.dequeue (q : ExecutionQueue) : Option (SequenceRequest × ExecutionQueue) :=
  match q.high with
  | r :: rest => some (r, { q with high := rest })
  | [] =>
    match q.normal with
    | r :: rest => some (r, { q with normal := rest })
    | [] => none

/-- Modelled from the spec (4.6): queue size. -/
def ExecutionQueue.size (q : ExecutionQueue) : Nat :=
  q.high.length + q.normal.length

/-- Modelled from the spec (4.6): emptiness test. -/
def ExecutionQueue.isEmpty (q : ExecutionQueue) : Bool :=
  q.high.isEmpty && q.normal.isEmpty

/-- The empty execution queue. -/
def emptyQueue : ExecutionQueue := { high := [], normal := [] }

/-- Modelled from the spec (4.8): the StatisticsManager's monotonic counters
and the rolling queue-wait-time record. -/
structure Stats where
  queued : Nat := 0
  started : Nat := 0
  completed : Nat := 0
  errored : Nat := 0
  cancelled : Nat := 0
  duplicates : Nat := 0
  waitTimes : List Nat := []
deriving DecidableEq, Repr

/-- Modelled from the spec (4.8): `recordSequenceQueued`. -/
def recordSequenceQueued (s : Stats) : Stats := { s with queued := s.queued + 1 }

/-- Modelled from the spec (4.8): `recordError`. -/
def recordError (s : Stats) : Stats := { s with errored := s.errored + 1 }

/-- Modelled from the spec (4.8): `recordDuplicate`. -/
def recordDuplicate (s : Stats) : Stats := { s with duplicates := s.duplicates + 1 }

/-- Modelled from the spec (4.8): `updateQueueWaitTime`. -/
def updateQueueWaitTime (s : Stats) (t : Nat) : Stats :=
  { s with waitTimes := s.waitTimes ++ [t] }

/-- The fresh statistics record. -/
def initStats : Stats := {}

/-- The bus events the orchestrator source emits: `SEQUENCE_CANCELLED` in
`handleDuplicateSequence` and `SEQUENCE_QUEUED` in `emitSequenceQueuedEvent`.
No other `eventBus.emit` call occurs in the source file. -/
inductive BusEvent where
  | sequenceCancelled (sequenceName : String) (requestId : String)
      (reason : String) (hash : String)
  | sequenceQueued (sequenceName : String) (requestId : String)
      (priority : SequencePriority) (queueLength : Nat)
deriving DecidableEq, Repr

/-- Modelled from the spec (4.5): a delegator resolution:
override | queue | reject | allow. -/
inductive DelegatorResolution where
  | override
  | queue
  | reject
  | allow
deriving DecidableEq, Repr

/-- Modelled from the spec (4.5): result of
`ResourceDelegator.checkResourceConflict`. -/
structure DelegatorResult where
  hasConflict : Bool
  resolution : DelegatorResolution
  reason : Option String
deriving DecidableEq, Repr

/-- The environment a `startSequence` call runs in: the clock
(`Date.now` / `performance.now`), the random request-id suffix
(`Math.random().toString(36).substr(2, 9)`), the utilities' monotonic
instance counter, and the resource delegator's verdict as an oracle. -/
structure Env where
  now : Nat
  rand : String
  instanceCounter : Nat
  delegator : String → String → SequencePriority → DelegatorResult

/-- Render a value by its lexical form (spec 4.4 canonicalization). -/
def renderValue : Value → String
  | Value.vStr s => s
  | Value.vInt i => toString i
  | Value.vBool b => toString b
  | Value.vConflict c => c.message

/-- Lexical form of a priority. -/
def prioToString : SequencePriority → String
  | SequencePriority.HIGH => "HIGH"
  | SequencePriority.NORMAL => "NORMAL"
  | SequencePriority.CHAINED => "CHAINED"

/-- Insert an entry into a key-sorted list of record entries. -/
def insertSorted (p : String × Value) : List (String × Value) → List (String × Value)
  | [] => [p]
  | q :: rest => if q.1 < p.1 then q :: insertSorted p rest else p :: q :: rest

/-- Sort record entries by key (spec 4.4: sort keys lexicographically). -/
def sortByKey : List (String × Value) → List (String × Value)
  | [] => []
  | p :: rest => insertSorted p (sortByKey rest)

/-- A key is excluded from canonicalization when it begins with `_`
(spec 4.4). -/
def keyIsPrivate (k : String) : Bool :=
  match k.data with
  | c :: _ => c = '_'
  | [] => false

/-- Modelled from the spec (4.4): deterministic textual canonicalization of
`(name, data, priority)` - keys sorted, `_`-prefixed keys excluded, scalars
by lexical form. -/
def canonicalForm (name : String) (data : RecordData) (priority : SequencePriority) : String :=
  let entries := (sortByKey data).filter (fun p => !(keyIsPrivate p.1))
  let body := String.intercalate (",") (entries.map (fun p => p.1 ++ "=" ++ renderValue p.2))
  name ++ "|" ++ body ++ "|" ++ prioToString priority

/-- Modelled from the spec (4.4): a 64-bit non-cryptographic mixer over the
canonical form (FNV-style fold over the characters, truncated to 64 bits). -/
def mix64 (s : String) : Nat :=
  s.data.foldl (fun h c => (h * 1099511628211 + c.toNat) % (2 ^ 64))
    (14695981039346656037 % (2 ^ 64))

/-- Modelled from the spec (4.4): `canonicalHash(name, data, priority)`. -/
def canonicalHash (name : String) (data : RecordData) (priority : SequencePriority) : String :=
  toString (mix64 (canonicalForm name data priority))

/-- The dedup window: recent `(hash, insertedAt)` entries (spec, data model). -/
abbrev DedupWindow := List (String × Nat)

/-- The dedup window width W in milliseconds (spec: default 1000). -/
def dedupWindowMs : Nat := 1000

/-- Result of `SequenceValidator.deduplicateSequenceRequest`. -/
structure DedupResult where
  isDuplicate : Bool
  reason : String
  hash : String
deriving DecidableEq, Repr

/-- Modelled from the spec (4.3): request deduplication. A request is a
duplicate iff its canonical hash is present in the DedupWindow (within W ms).
Regardless of duplicate status the hash is returned so the orchestrator may
record it; the check itself records nothing. -/
def deduplicateSequenceRequest (now : Nat) (window : DedupWindow)
    (sequenceName : String) (data : RecordData) (priority : SequencePriority) : DedupResult :=
  let h := canonicalHash sequenceName data priority
  if window.any (fun e => e.1 = h && now - e.2 < dedupWindowMs) then
    { isDuplicate := true,
      reason := "Duplicate sequence request detected within window: " ++ h,
      hash := h }
  else
    { isDuplicate := false, reason := "", hash := h }

/-- The characters before the last `.` of a character list, or `none` when
there is no `.`. -/
def beforeLastDot : List Char → Option (List Char)
  | [] => none
  | c :: rest =>
    match beforeLastDot rest with
    | some pre => some (c :: pre)
    | none => if c = '.' then some [] else none

/-- Modelled from the spec (4.4): `extractSymphonyName(name)` - everything up
to the last `.` (the name itself when it has no `.`). -/
def extractSymphonyName (name : String) : String :=
  match beforeLastDot name.data with
  | some pre => String.mk pre
  | none => name

/-- Modelled from the spec (4.4): `extractResourceId(name, data)` -
`data.elementId`, else `data.resourceId`, else the symphony name. -/
def extractResourceId (name : String) (data : RecordData) : String :=
  match lookupKey data ("elementId") with
  | some v => renderValue v
  | none =>
    match lookupKey data ("resourceId") with
    | some v => renderValue v
    | none => extractSymphonyName name

/-- Modelled from the spec (4.4): `createSequenceInstanceId(name, data, tag)`
is `<name>:<resourceId>:<monotonic counter>`. -/
def createSequenceInstanceId (env : Env) (name : String) (data : RecordData)
    (_tag : String) : String :=
  name ++ ":" ++ extractResourceId name data ++ ":" ++ toString env.instanceCounter

/-- Orchestration metadata extracted at admission (source:
`extractOrchestrationMetadata` return type). -/
structure OrchestrationMetadata where
  symphonyName : String
  resourceId : String
  instanceId : String
deriving DecidableEq, Repr

/-- Source `extractOrchestrationMetadata`: symphony name, resource id and
instance id for a request; note the source passes the literal tag "NORMAL". -/
def extractOrchestrationMetadata (env : Env) (sequenceName : String)
    (data : RecordData) : OrchestrationMetadata :=
  { symphonyName := extractSymphonyName sequenceName,
    resourceId := extractResourceId sequenceName data,
    instanceId := createSequenceInstanceId env sequenceName data ("NORMAL") }

/-- Source `checkResourceConflicts`: converts the delegator result to the
conductor's format (override maps to ALLOW, reject to REJECT, queue to QUEUE,
anything else to ALLOW; message falls back to "No conflict detected"). -/
def checkResourceConflicts (env : Env) (metadata : OrchestrationMetadata)
    (priority : SequencePriority) : ResourceConflictResult :=
  let delegatorResult := env.delegator metadata.resourceId metadata.instanceId priority
  { hasConflict := delegatorResult.hasConflict,
    conflictType :=
      if delegatorResult.hasConflict then ConflictType.SAME_RESOURCE else ConflictType.NONE,
    resolution :=
      match delegatorResult.resolution with
      | DelegatorResolution.override => Resolution.ALLOW
      | DelegatorResolution.reject => Resolution.REJECT
      | DelegatorResolution.queue => Resolution.QUEUE
      | DelegatorResolution.allow => Resolution.ALLOW,
    message :=
      match delegatorResult.reason with
      | some r => if r = "" then "No conflict detected" else r
      | none => "No conflict detected" }

/-- Source `createSequenceRequest`: the caller's data shallow-merged (JS
spread) with `instanceId`, `symphonyName`, `resourceId`, `conflictResult` and
`sequenceHash`; `queuedAt` is `performance.now()`. -/
def createSequenceRequest (env : Env) (sequenceName : String) (data : RecordData)
    (priority : SequencePriority) (requestId : String)
    (metadata : OrchestrationMetadata) (conflictResult : ResourceConflictResult)
    (sequenceHash : String) : SequenceRequest :=
  { sequenceName := sequenceName,
    data :=
      setKey (setKey (setKey (setKey (setKey data
        ("instanceId") (Value.vStr metadata.instanceId))
        ("symphonyName") (Value.vStr metadata.symphonyName))
        ("resourceId") (Value.vStr metadata.resourceId))
        ("conflictResult") (Value.vConflict conflictResult))
        ("sequenceHash") (Value.vStr sequenceHash),
    priority := priority,
    requestId := requestId,
    queuedAt := env.now }

/-- Source `generateRequestId`: `<name>-<Date.now()>-<random suffix>`. -/
def generateRequestId (env : Env) (sequenceName : String) : String :=
  sequenceName ++ "-" ++ toString env.now ++ "-" ++ env.rand

/-- `SequenceStartResult` as declared in the source file (optional fields as
`Option`). -/
structure SequenceStartResult where
  requestId : String
  success : Bool
  reason : Option String := none
  isDuplicate : Option Bool := none
deriving DecidableEq, Repr

/-- `QueueProcessingResult` as declared in the source file. -/
structure QueueProcessingResult where
  processed : Bool
  sequenceName : Option String := none
  success : Option Bool := none
  error : Option String := none
deriving DecidableEq, Repr

/-- The orchestrator-visible mutable state: registry contents, execution
queue, dedup window, statistics, the log of bus emissions, and whether the
executor currently reports a running sequence. -/
structure OrchestratorState where
  registry : Registry
  queue : ExecutionQueue
  dedupWindow : DedupWindow
  stats : Stats
  busLog : List BusEvent
  running : Bool
deriving Repr

/-- Externally visible actions of the orchestrator, in program order:
statistics calls, enqueue/dequeue, the fire-and-forget drain trigger of
`processQueueIfIdle`, bus emissions, and hand-offs to the executor. -/
inductive Action where
  | statRecordQueued
  | statRecordError
  | statWaitTime (t : Nat)
  | enqueued (r : SequenceRequest)
  | dequeued (r : SequenceRequest)
  | drainTriggered
  | emitted (e : BusEvent)
  | executed (r : SequenceRequest)
deriving DecidableEq, Repr

/-- Source `handleDuplicateSequence`: build a fresh request id tagged
`duplicate`, emit `SEQUENCE_CANCELLED { reason: "duplicate-request" }`, and
return `{ success:false, isDuplicate:true }`. No statistic is recorded and
nothing is enqueued. -/
def handleDuplicateSequence (env : Env) (st : OrchestratorState)
    (sequenceName : String) (deduplicationResult : DedupResult) :
    OrchestratorState × List Action × SequenceStartResult :=
  let duplicateRequestId :=
    sequenceName ++ "-duplicate-" ++ toString env.now ++ "-" ++ env.rand
  let ev := BusEvent.sequenceCancelled sequenceName duplicateRequestId
    ("duplicate-request") deduplicationResult.hash
  ({ st with busLog := st.busLog ++ [ev] },
   [Action.emitted ev],
   { requestId := duplicateRequestId,
     success := false,
     isDuplicate := some true,
     reason := some deduplicationResult.reason })

/-- Source `startSequence`: the admission pipeline. Phase 1 registry lookup
(missing throws, caught below as `{success:false}` plus `recordError`);
phase 2 validator deduplication (duplicate delegates to
`handleDuplicateSequence`); phase 3 `recordSequenceExecution` - in the source
this only logs to the console and mutates nothing, which the model reflects
by leaving the dedup window untouched; phases 4-5 metadata extraction and
conflict check (REJECT throws, caught as `{success:false}` plus
`recordError`); phases 6-9 build the request, record the queued statistic,
enqueue, trigger a drain if the executor is idle, emit `SEQUENCE_QUEUED`
and return `{requestId, success:true}`. -/
def startSequence (env : Env) (st : OrchestratorState) (sequenceName : String)
    (data : RecordData) (priority : SequencePriority) :
    OrchestratorState × List Action × SequenceStartResult :=
  let requestId := generateRequestId env sequenceName
  match registryGet st.registry sequenceName with
  | none =>
    ({ st with stats := recordError st.stats },
     [Action.statRecordError],
     { requestId := requestId,
       success := false,
       reason := some ("Sequence \"" ++ sequenceName ++ "\" not found") })
  | some _ =>
    let deduplicationResult :=
      deduplicateSequenceRequest env.now st.dedupWindow sequenceName data priority
    if deduplicationResult.isDuplicate then
      handleDuplicateSequence env st sequenceName deduplicationResult
    else
      let metadata := extractOrchestrationMetadata env sequenceName data
      let conflictResult := checkResourceConflicts env metadata priority
      if conflictResult.resolution = Resolution.REJECT then
        ({ st with stats := recordError st.stats },
         [Action.statRecordError],
         { requestId := requestId,
           success := false,
           reason := some ("Resource conflict: " ++ conflictResult.message) })
      else
        let sequenceRequest := createSequenceRequest env sequenceName data priority
          requestId metadata conflictResult deduplicationResult.hash
        let st1 := { st with
          stats := recordSequenceQueued st.stats,
          queue := st.queue.enqueue sequenceRequest }
        let drainActs := if st1.running then ([] : List Action) else [Action.drainTriggered]
        let ev := BusEvent.sequenceQueued sequenceName requestId priority st1.queue.size
        ({ st1 with busLog := st1.busLog ++ [ev] },
         [Action.statRecordQueued, Action.enqueued sequenceRequest] ++ drainActs
           ++ [Action.emitted ev],
         { requestId := requestId, success := true })

/-- Dequeuing strictly shrinks the queue. -/
theorem ExecutionQueue.dequeue_size_lt {q : ExecutionQueue} {r : SequenceRequest}
    {q1 : ExecutionQueue} (h : q.dequeue = some (r, q1)) : q1.size < q.size := by
  unfold ExecutionQueue.dequeue at h
  cases hh : q.high with
  | cons a rest =>
    rw [hh] at h
    cases h
    simp [ExecutionQueue.size, hh]
  | nil =>
    rw [hh] at h
    cases hn : q.normal with
    | nil => rw [hn] at h; cases h
    | cons a rest =>
      rw [hn] at h
      cases h
      simp [ExecutionQueue.size, hh, hn]

/-- The executor's behaviour as an oracle: `executeSequence(request, sequence)`
either settles successfully or rejects with an error message. -/
abbrev Executor := SequenceRequest → MusicalSequence → Except String Unit

/-- Source `processSequenceQueue`: if the queue is empty or the executor is
busy, no-op returning `{processed:false}`. Else dequeue, record the queue
wait time; if the sequence disappeared from the registry log an error (no bus
emission in the source), continue draining and report
`{processed:true, success:false, error:"Sequence not found in registry"}`;
else hand the request to the executor, and whether it settles or rejects,
continue draining and report the first request's outcome. The source's
fire-and-forget recursive call is modelled as inline recursion; the executor
has settled by the time it runs, so `running` is unchanged. -/
def processSequenceQueue (exec : Executor) (now : Nat) (st : OrchestratorState) :
    OrchestratorState × List Action × QueueProcessingResult :=
  if st.queue.isEmpty || st.running then
    (st, [], { processed := false })
  else
    match hdq : st.queue.dequeue with
    | none => (st, [], { processed := false })
    | some (nextRequest, q1) =>
      let waitTime := now - nextRequest.queuedAt
      let st1 := { st with
        queue := q1,
        stats := updateQueueWaitTime st.stats waitTime }
      match registryGet st1.registry nextRequest.sequenceName with
      | none =>
        let rec1 := processSequenceQueue exec now st1
        (rec1.1,
         [Action.dequeued nextRequest, Action.statWaitTime waitTime] ++ rec1.2.1,
         { processed := true,
           sequenceName := some nextRequest.sequenceName,
           success := some false,
           error := some ("Sequence not found in registry") })
      | some sequence =>
        match exec nextRequest sequence with
        | Except.ok _ =>
          let rec1 := processSequenceQueue exec now st1
          (rec1.1,
           [Action.dequeued nextRequest, Action.statWaitTime waitTime,
            Action.executed nextRequest] ++ rec1.2.1,
           { processed := true,
             sequenceName := some nextRequest.sequenceName,
             success := some true })
        | Except.error msg =>
          let rec1 := processSequenceQueue exec now st1
          (rec1.1,
           [Action.dequeued nextRequest, Action.statWaitTime waitTime,
            Action.executed nextRequest] ++ rec1.2.1,
           { processed := true,
             sequenceName := some nextRequest.sequenceName,
             success := some false,
             error := some msg })
termination_by st.queue.size
decreasing_by
  all_goals exact ExecutionQueue.dequeue_size_lt hdq

/-- Source `processQueueIfIdle`: trigger a drain only when the executor is
not running a sequence. -/
def processQueueIfIdle (exec : Executor) (now : Nat) (st : OrchestratorState) :
    OrchestratorState × List Action × Option QueueProcessingResult :=
  if st.running then (st, [], none)
  else
    let r := processSequenceQueue exec now st
    (r.1, Action.drainTriggered :: r.2.1, some r.2.2)

/-- Execution type of a context: "IMMEDIATE" | "CONSECUTIVE". -/
inductive ExecutionType where
  | IMMEDIATE
  | CONSECUTIVE
deriving DecidableEq, Repr

/-- Modelled from the spec (4.4): the base execution context that
`SequenceUtilities.createExecutionContext(request)` assembles from the
request; the orchestrator augments it with the resolved sequence. -/
structure BaseExecutionContext where
  requestId : String
  sequenceName : String
  data : RecordData
deriving DecidableEq, Repr

/-- Modelled from the spec (4.4): assemble the base context from the request. -/
def buildBaseContext (r : SequenceRequest) : BaseExecutionContext :=
  { requestId := r.requestId, sequenceName := r.sequenceName, data := r.data }

/-- `SequenceExecutionContext` as the orchestrator returns it: the base
context plus the resolved sequence, execution type and priority. -/
structure SequenceExecutionContext where
  requestId : String
  sequenceName : String
  data : RecordData
  sequence : MusicalSequence
  executionType : ExecutionType
  priority : SequencePriority
deriving DecidableEq, Repr

/-- Source `createExecutionContext`: build the base context, resolve the
sequence from the registry (missing throws), and return the context with
`executionType` IMMEDIATE exactly for HIGH priority, CONSECUTIVE otherwise. -/
def createExecutionContext (registry : Registry) (sequenceRequest : SequenceRequest) :
    Except String SequenceExecutionContext :=
  let baseContext := buildBaseContext sequenceRequest
  match registryGet registry sequenceRequest.sequenceName with
  | none =>
    Except.error ("Sequence " ++ sequenceRequest.sequenceName ++ " not found")
  | some sequence =>
    Except.ok
      { requestId := baseContext.requestId,
        sequenceName := baseContext.sequenceName,
        data := baseContext.data,
        sequence := sequence,
        executionType :=
          if sequenceRequest.priority = SequencePriority.HIGH then ExecutionType.IMMEDIATE
          else ExecutionType.CONSECUTIVE,
        priority := sequenceRequest.priority }

/-! ### Concrete instances used by the witnesses and counterexamples -/

/-- A delegator that always allows (spec 4.5 rule 1: no current owner). -/
def allowDelegator : String → String → SequencePriority → DelegatorResult :=
  fun _ _ _ => { hasConflict := false, resolution := DelegatorResolution.allow, reason := none }

/-- An executor oracle that always settles successfully. -/
def execAlwaysOk : Executor := fun _ _ => Except.ok ()

/-- An executor oracle that always rejects. -/
def execAlwaysFails : Executor := fun _ _ => Except.error ("handler exploded")

def envC1a : Env := { now := 0, rand := "r1", instanceCounter := 0, delegator := allowDelegator }

def envC1b : Env := { now := 1, rand := "r2", instanceCounter := 1, delegator := allowDelegator }

def stC1 : OrchestratorState :=
  { registry := [("Demo.ping-symphony", { name := "Demo.ping-symphony" })],
    queue := emptyQueue, dedupWindow := [], stats := initStats, busLog := [], running := false }

/-- Result of the first `startSequence` call of the C1 scenario (time 0 ms). -/
def c1first : OrchestratorState × List Action × SequenceStartResult :=
  startSequence envC1a stC1 ("Demo.ping-symphony") [] SequencePriority.NORMAL

/-- Result of the identical second call of the C1 scenario (time 1 ms, well
inside the W = 1000 ms window). -/
def c1second : OrchestratorState × List Action × SequenceStartResult :=
  startSequence envC1b c1first.1 ("Demo.ping-symphony") [] SequencePriority.NORMAL

def reqGhost : SequenceRequest :=
  { sequenceName := "Ghost.vanished-symphony", data := [],
    priority := SequencePriority.NORMAL, requestId := "ghost-1", queuedAt := 0 }

def stC2 : OrchestratorState :=
  { registry := [], queue := { high := [], normal := [reqGhost] }, dedupWindow := [],
    stats := initStats, busLog := [], running := false }

def envC3 : Env := { now := 10, rand := "r3", instanceCounter := 0, delegator := allowDelegator }

def stC3 : OrchestratorState :=
  { registry := [("Demo.ping-symphony", { name := "Demo.ping-symphony" })],
    queue := emptyQueue,
    dedupWindow := [(canonicalHash ("Demo.ping-symphony") [] SequencePriority.NORMAL, 5)],
    stats := initStats, busLog := [], running := false }

def envC4 : Env := { now := 0, rand := "r4", instanceCounter := 0, delegator := allowDelegator }

def stC4 : OrchestratorState :=
  { registry := [], queue := emptyQueue, dedupWindow := [], stats := initStats,
    busLog := [], running := false }

def envC5 : Env := { now := 7, rand := "r5", instanceCounter := 3, delegator := allowDelegator }

def stC5 : OrchestratorState :=
  { registry := [("Demo.ping-symphony", { name := "Demo.ping-symphony" })],
    queue := emptyQueue, dedupWindow := [], stats := initStats, busLog := [], running := false }

def reqC6 : SequenceRequest :=
  { sequenceName := "Demo.ping-symphony", data := [],
    priority := SequencePriority.NORMAL, requestId := "rq6", queuedAt := 0 }

def stC6 : OrchestratorState :=
  { registry := [("Demo.ping-symphony", { name := "Demo.ping-symphony" })],
    queue := { high := [], normal := [reqC6] }, dedupWindow := [], stats := initStats,
    busLog := [], running := true }

def reqC7 : SequenceRequest :=
  { sequenceName := "Demo.fail-symphony", data := [],
    priority := SequencePriority.NORMAL, requestId := "rq7", queuedAt := 2 }

def stC7 : OrchestratorState :=
  { registry := [("Demo.fail-symphony", { name := "Demo.fail-symphony" })],
    queue := { high := [], normal := [reqC7] }, dedupWindow := [], stats := initStats,
    busLog := [], running := false }

/-- The data object of an admitted request, as stored by
`createSequenceRequest` (the shallow merge observed by C8). -/
def requestDataOf (env : Env) (sequenceName : String) (data : RecordData)
    (priority : SequencePriority) (requestId : String) (metadata : OrchestrationMetadata)
    (conflictResult : ResourceConflictResult) (sequenceHash : String) : RecordData :=
  (createSequenceRequest env sequenceName data priority requestId metadata conflictResult
    sequenceHash).data

def envC8 : Env := { now := 3, rand := "r8", instanceCounter := 0, delegator := allowDelegator }

def mdC8 : OrchestrationMetadata :=
  { symphonyName := "Demo", resourceId := "elem-1", instanceId := "Demo.x-symphony:elem-1:0" }

def crC8 : ResourceConflictResult :=
  { hasConflict := false, conflictType := ConflictType.NONE, resolution := Resolution.ALLOW,
    message := "No conflict detected" }

def dataC8 : RecordData := [("userKey", Value.vInt 5), ("instanceId", Value.vStr "caller")]

def envC9 : Env := { now := 2, rand := "r9", instanceCounter := 0, delegator := allowDelegator }

def stC9 : OrchestratorState :=
  { registry := [], queue := emptyQueue, dedupWindow := [], stats := initStats,
    busLog := [], running := false }

def regC10 : Registry := [("Demo.ping-symphony", { name := "Demo.ping-symphony" })]

def reqC10 : SequenceRequest :=
  { sequenceName := "Demo.ping-symphony", data := [],
    priority := SequencePriority.HIGH, requestId := "rq10", queuedAt := 0 }

def reqC10b : SequenceRequest :=
  { sequenceName := "Demo.ping-symphony", data := [],
    priority := SequencePriority.NORMAL, requestId := "rq10b", queuedAt := 0 }

/-- A queue that is not empty has something to dequeue. -/
theorem ExecutionQueue.dequeue_of_not_isEmpty {q : ExecutionQueue}
    (h : q.isEmpty = false) : ∃ r q1, q.dequeue = some (r, q1) := by
  obtain ⟨qh, qn⟩ := q
  unfold ExecutionQueue.isEmpty at h
  unfold ExecutionQueue.dequeue
  cases qh with
  | cons a rest => exact ⟨a, ⟨rest, qn⟩, rfl⟩
  | nil =>
    cases qn with
    | cons a rest => exact ⟨a, ⟨[], rest⟩, rfl⟩
    | nil => simp at h

/-- A queue with something to dequeue is not empty. -/
theorem ExecutionQueue.isEmpty_eq_false_of_dequeue {q : ExecutionQueue}
    {r : SequenceRequest} {q1 : ExecutionQueue} (h : q.dequeue = some (r, q1)) :
    q.isEmpty = false := by
  obtain ⟨qh, qn⟩ := q
  unfold ExecutionQueue.dequeue at h
  unfold ExecutionQueue.isEmpty
  cases qh with
  | cons a rest => simp
  | nil =>
    cases qn with
    | cons a rest => simp
    | nil => cases h

/-- One drain step at a non-empty queue with an idle executor: the unfolding
of `processSequenceQueue` after a successful dequeue. -/
theorem processSequenceQueue_step (exec : Executor) (now : Nat) (st : OrchestratorState)
    {req : SequenceRequest} {q1 : ExecutionQueue}
    (hrun : st.running = false) (hdq : st.queue.dequeue = some (req, q1)) :
    processSequenceQueue exec now st =
      (let waitTime := now - req.queuedAt
       let st1 := { st with queue := q1, stats := updateQueueWaitTime st.stats waitTime }
       let rec1 := processSequenceQueue exec now st1
       match registryGet st.registry req.sequenceName with
       | none =>
         (rec1.1,
          [Action.dequeued req, Action.statWaitTime waitTime] ++ rec1.2.1,
          { processed := true,
            sequenceName := some req.sequenceName,
            success := some false,
            error := some ("Sequence not found in registry") })
       | some sequence =>
         match exec req sequence with
         | Except.ok _ =>
           (rec1.1,
            [Action.dequeued req, Action.statWaitTime waitTime, Action.executed req] ++ rec1.2.1,
            { processed := true,
              sequenceName := some req.sequenceName,
              success := some true })
         | Except.error msg =>
           (rec1.1,
            [Action.dequeued req, Action.statWaitTime waitTime, Action.executed req] ++ rec1.2.1,
            { processed := true,
              sequenceName := some req.sequenceName,
              success := some false,
              error := some msg })) := by
  have hne : st.queue.isEmpty = false := ExecutionQueue.isEmpty_eq_false_of_dequeue hdq
  conv_lhs => rw [processSequenceQueue.eq_def]
  rw [if_neg (by simp [hne, hrun])]
  split
  · next heq => rw [hdq] at heq; exact Option.noConfusion heq
  · next r q2 heq =>
    rw [hdq] at heq
    injection heq with h2
    have h3 : req = r := congrArg Prod.fst h2
    have h4 : q1 = q2 := congrArg Prod.snd h2
    subst h3
    subst h4
    rfl

/-- The drainer never emits a bus event: the bus log is unchanged by
`processSequenceQueue` (the source's missing-at-drain and failure branches
only log to the console). -/
theorem drain_busLog_unchanged (exec : Executor) (now : Nat) (st : OrchestratorState) :
    ((processSequenceQueue exec now st).1).busLog = st.busLog := by
  induction st using processSequenceQueue.induct exec now with
  | case1 x h =>
    unfold processSequenceQueue
    rw [if_pos h]
  | case2 x h hdq =>
    unfold processSequenceQueue
    rw [if_neg h]
    split
    · rfl
    · next r q2 heq => rw [hdq] at heq; exact Option.noConfusion heq
  | case3 x h nextRequest q1 hdq waitTime st1 hreg ih =>
    have h1 : x.queue.isEmpty = false ∧ x.running = false := by simpa using h
    rw [processSequenceQueue_step exec now x h1.2 hdq]
    simp only [hreg]
    exact ih
  | case4 x h nextRequest q1 hdq waitTime st1 val hreg a hexec ih =>
    have h1 : x.queue.isEmpty = false ∧ x.running = false := by simpa using h
    rw [processSequenceQueue_step exec now x h1.2 hdq]
    simp only [hreg, hexec]
    exact ih
  | case5 x h nextRequest q1 hdq waitTime st1 val hreg msg hexec ih =>
    have h1 : x.queue.isEmpty = false ∧ x.running = false := by simpa using h
    rw [processSequenceQueue_step exec now x h1.2 hdq]
    simp only [hreg, hexec]
    exact ih

/-- When the executor is idle, the drainer keeps going until the queue is
empty: whatever each dequeued request does (missing sequence, executor
success or rejection), the remaining queue is drained. -/
theorem drain_empties_queue (exec : Executor) (now : Nat) (st : OrchestratorState) :
    st.running = false → (((processSequenceQueue exec now st).1).queue).isEmpty = true := by
  induction st using processSequenceQueue.induct exec now with
  | case1 x h =>
    intro hrun
    unfold processSequenceQueue
    rw [if_pos h]
    rw [hrun] at h
    simpa using h
  | case2 x h hdq =>
    intro hrun
    exfalso
    rw [hrun] at h
    simp at h
    obtain ⟨r, q1, hsome⟩ := ExecutionQueue.dequeue_of_not_isEmpty h
    rw [hsome] at hdq
    exact Option.noConfusion hdq
  | case3 x h nextRequest q1 hdq waitTime st1 hreg ih =>
    intro hrun
    have h1 : x.queue.isEmpty = false ∧ x.running = false := by simpa using h
    rw [processSequenceQueue_step exec now x h1.2 hdq]
    simp only [hreg]
    exact ih h1.2
  | case4 x h nextRequest q1 hdq waitTime st1 val hreg a hexec ih =>
    intro hrun
    have h1 : x.queue.isEmpty = false ∧ x.running = false := by simpa using h
    rw [processSequenceQueue_step exec now x h1.2 hdq]
    simp only [hreg, hexec]
    exact ih h1.2
  | case5 x h nextRequest q1 hdq waitTime st1 val hreg msg hexec ih =>
    intro hrun
    have h1 : x.queue.isEmpty = false ∧ x.running = false := by simpa using h
    rw [processSequenceQueue_step exec now x h1.2 hdq]
    simp only [hreg, hexec]
    exact ih h1.2

/-- Guard of the drainer: with an empty queue or a busy executor the call is
a pure no-op. -/
theorem processSequenceQueue_noop (exec : Executor) (now : Nat) (st : OrchestratorState)
    (h : st.queue.isEmpty = true ∨ st.running = true) :
    processSequenceQueue exec now st = (st, [], { processed := false }) := by
  unfold processSequenceQueue
  rcases h with h | h <;> simp [h]

/-- Looking up the key just written by `setKey` yields the written value. -/
theorem lookupKey_setKey_self (m : RecordData) (k : String) (v : Value) :
    lookupKey (setKey m k v) k = some v := by
  induction m with
  | nil => simp [setKey, lookupKey]
  | cons p rest ih =>
    by_cases hp : p.1 = k
    · simp [setKey, hp, ih]
    · simp [setKey, hp, lookupKey, ih]

/-- Looking up any other key is unaffected by `setKey`. -/
theorem lookupKey_setKey_ne (m : RecordData) (k : String) (v : Value) (k2 : String)
    (hne : k2 ≠ k) : lookupKey (setKey m k v) k2 = lookupKey m k2 := by
  induction m with
  | nil => simp [setKey, lookupKey, Ne.symm hne]
  | cons p rest ih =>
    by_cases hp : p.1 = k
    · have hp2 : p.1 ≠ k2 := by rw [hp]; exact Ne.symm hne
      simp [setKey, hp, lookupKey, hp2, Ne.symm hne, ih]
    · by_cases hq : p.1 = k2
      · simp [setKey, hp, lookupKey, hq, hne, Ne.symm hne]
      · simp [setKey, hp, lookupKey, hq, hne, Ne.symm hne, ih]

/-! ### Claims -/

/-- C1: the claim states that after a non-duplicate admission the canonical
hash is recorded in the DedupWindow before any further admission work, so
that an identical call within W ms is classified as a duplicate and produces
no second admission. In the source, `recordSequenceExecution` (the recording
site, lines 429-435) only writes a console log and mutates nothing, and no
other code touches the window: after a successful first admission the window
is still empty, and an identical call 1 ms later is admitted again - it is
not flagged as a duplicate and the queue ends up holding two requests. -/
theorem C1_second_identical_call_admitted :
    c1first.2.2.success = true ∧
    (c1first.1).dedupWindow = [] ∧
    c1second.2.2.success = true ∧
    c1second.2.2.isDuplicate = none ∧
    (c1second.1).queue.size = 2 :=
  ⟨rfl, rfl, rfl, rfl, rfl⟩

/-- C2 counterexample: at a drain step whose dequeued request vanished from
the registry, the source emits nothing on the event bus - it only logs to
the console and reports the error through the returned result - refuting the
claimed `SEQUENCE_FAILED { reason: "missing-at-drain" }` emission. -/
theorem C2_counterexample_no_bus_emission :
    ((processSequenceQueue execAlwaysOk 5 stC2).1).busLog = [] ∧
    (processSequenceQueue execAlwaysOk 5 stC2).2.2 =
      { processed := true, sequenceName := some ("Ghost.vanished-symphony"),
        success := some false, error := some ("Sequence not found in registry") } := by
  rw [processSequenceQueue_step execAlwaysOk 5 stC2 rfl rfl]
  rw [show registryGet stC2.registry reqGhost.sequenceName = none from rfl]
  refine ⟨?_, rfl⟩
  rw [drain_busLog_unchanged]
  rfl

/-- C2 (amended): for every dequeued request whose sequenceName is no longer
present in the registry at drain time, `processSequenceQueue` reports
`{processed:true, success:false, error:"Sequence not found in registry"}`
for that request and continues draining the rest of the queue (the queue is
empty afterwards); it emits nothing on the event bus. -/
theorem C2_missing_at_drain (exec : Executor) (now : Nat) (st : OrchestratorState)
    (req : SequenceRequest) (q1 : ExecutionQueue)
    (hrun : st.running = false)
    (hdq : st.queue.dequeue = some (req, q1))
    (hreg : registryGet st.registry req.sequenceName = none) :
    (processSequenceQueue exec now st).2.2 =
      { processed := true, sequenceName := some req.sequenceName,
        success := some false, error := some ("Sequence not found in registry") } ∧
    ((processSequenceQueue exec now st).1).busLog = st.busLog ∧
    (((processSequenceQueue exec now st).1).queue).isEmpty = true := by
  rw [processSequenceQueue_step exec now st hrun hdq]
  rw [hreg]
  exact ⟨rfl, drain_busLog_unchanged exec now _, drain_empties_queue exec now _ hrun⟩

/-- C2 witness: the amended drain behaviour at a concrete one-element queue
whose request's sequence is missing from the registry. -/
theorem C2_missing_at_drain_witness :
    stC2.running = false ∧
    stC2.queue.dequeue = some (reqGhost, emptyQueue) ∧
    registryGet stC2.registry reqGhost.sequenceName = none ∧
    (processSequenceQueue execAlwaysOk 5 stC2).2.2 =
      { processed := true, sequenceName := some reqGhost.sequenceName,
        success := some false, error := some ("Sequence not found in registry") } :=
  ⟨rfl, rfl, rfl,
    (C2_missing_at_drain execAlwaysOk 5 stC2 reqGhost emptyQueue rfl rfl rfl).1⟩

/-- C3 counterexample: a duplicate call is detected (isDuplicate is returned
as true) but the statistics record is completely untouched - in particular
the duplicates counter stays 0 - refuting the claimed "records the duplicate
in the statistics manager". -/
theorem C3_counterexample_no_duplicate_stat :
    (startSequence envC3 stC3 ("Demo.ping-symphony") [] SequencePriority.NORMAL).2.2.isDuplicate
      = some true ∧
    ((startSequence envC3 stC3 ("Demo.ping-symphony") [] SequencePriority.NORMAL).1).stats
      = initStats ∧
    ((startSequence envC3 stC3 ("Demo.ping-symphony") [] SequencePriority.NORMAL).1).stats.duplicates
      = 0 :=
  ⟨rfl, rfl, rfl⟩

/-- C3 (amended): for every call whose deduplication check reports
isDuplicate, the orchestrator emits `SEQUENCE_CANCELLED` with reason
"duplicate-request", returns `{success:false, isDuplicate:true}` under a
freshly generated request id tagged "duplicate", and enqueues nothing; no
statistic (in particular no duplicate count) is recorded. -/
theorem C3_duplicate_path (env : Env) (st : OrchestratorState) (sequenceName : String)
    (data : RecordData) (priority : SequencePriority) (seq : MusicalSequence)
    (hreg : registryGet st.registry sequenceName = some seq)
    (hdup : (deduplicateSequenceRequest env.now st.dedupWindow sequenceName data
      priority).isDuplicate = true) :
    startSequence env st sequenceName data priority =
      ({ st with busLog := st.busLog ++
          [BusEvent.sequenceCancelled sequenceName
            (sequenceName ++ "-duplicate-" ++ toString env.now ++ "-" ++ env.rand)
            ("duplicate-request")
            (deduplicateSequenceRequest env.now st.dedupWindow sequenceName data priority).hash] },
       [Action.emitted (BusEvent.sequenceCancelled sequenceName
          (sequenceName ++ "-duplicate-" ++ toString env.now ++ "-" ++ env.rand)
          ("duplicate-request")
          (deduplicateSequenceRequest env.now st.dedupWindow sequenceName data priority).hash)],
       { requestId := sequenceName ++ "-duplicate-" ++ toString env.now ++ "-" ++ env.rand,
         success := false,
         isDuplicate := some true,
         reason := some (deduplicateSequenceRequest env.now st.dedupWindow sequenceName data
           priority).reason }) := by
  simp [startSequence, hreg, hdup, handleDuplicateSequence]

/-- C3 witness: the amended duplicate behaviour at a concrete duplicate call
(the canonical hash of the call sits in the window, 5 ms old). -/
theorem C3_duplicate_path_witness :
    registryGet stC3.registry ("Demo.ping-symphony") = some { name := "Demo.ping-symphony" } ∧
    (deduplicateSequenceRequest envC3.now stC3.dedupWindow ("Demo.ping-symphony") []
      SequencePriority.NORMAL).isDuplicate = true ∧
    (startSequence envC3 stC3 ("Demo.ping-symphony") [] SequencePriority.NORMAL).2.2.isDuplicate
      = some true :=
  ⟨rfl, rfl, by
    rw [C3_duplicate_path envC3 stC3 ("Demo.ping-symphony") [] SequencePriority.NORMAL
      { name := "Demo.ping-symphony" } rfl rfl]⟩

/-- C4 counterexample: an admission-time error (the sequence is missing from
the registry) returns `{success:false, reason}` synchronously, but the bus
log stays empty and the only action is the error statistic - no cancellation
or failed event is emitted for observers, refuting the claim's "additionally
emits a cancellation or failed event on the event bus". -/
theorem C4_counterexample_no_bus_event :
    (startSequence envC4 stC4 ("Ghost.vanished-symphony") [] SequencePriority.NORMAL).2.2.success
      = false ∧
    (startSequence envC4 stC4 ("Ghost.vanished-symphony") [] SequencePriority.NORMAL).2.2.reason
      = some ("Sequence \"Ghost.vanished-symphony\" not found") ∧
    ((startSequence envC4 stC4 ("Ghost.vanished-symphony") [] SequencePriority.NORMAL).1).busLog
      = [] ∧
    (startSequence envC4 stC4 ("Ghost.vanished-symphony") [] SequencePriority.NORMAL).2.1
      = [Action.statRecordError] :=
  ⟨rfl, rfl, rfl, rfl⟩

/-- C4 (amended): for every admission-time error in `startSequence` - the
sequence missing from the registry, or a "reject" conflict resolution - the
call returns synchronously with `{success:false, reason}` and records an
error statistic; nothing is emitted on the event bus and nothing is
enqueued. -/
theorem C4_admission_errors_sync_only (env : Env) (st : OrchestratorState)
    (sequenceName : String) (data : RecordData) (priority : SequencePriority)
    (herr : registryGet st.registry sequenceName = none ∨
      (∃ seq, registryGet st.registry sequenceName = some seq ∧
        (deduplicateSequenceRequest env.now st.dedupWindow sequenceName data
          priority).isDuplicate = false ∧
        (checkResourceConflicts env (extractOrchestrationMetadata env sequenceName data)
          priority).resolution = Resolution.REJECT)) :
    (startSequence env st sequenceName data priority).2.2.success = false ∧
    ((startSequence env st sequenceName data priority).2.2.reason).isSome = true ∧
    ((startSequence env st sequenceName data priority).1).busLog = st.busLog ∧
    ((startSequence env st sequenceName data priority).1).stats.errored
      = st.stats.errored + 1 ∧
    ((startSequence env st sequenceName data priority).1).queue = st.queue := by
  rcases herr with hreg | ⟨seq, hreg, hdup, hrej⟩
  · simp [startSequence, hreg, recordError]
  · simp [startSequence, hreg, hdup, hrej, recordError]

/-- C4 witness: the amended behaviour at a concrete missing-sequence call. -/
theorem C4_admission_errors_witness :
    registryGet stC4.registry ("Ghost.vanished-symphony") = none ∧
    ((startSequence envC4 stC4 ("Ghost.vanished-symphony") [] SequencePriority.NORMAL).1).busLog
      = stC4.busLog :=
  ⟨rfl,
    (C4_admission_errors_sync_only envC4 stC4 ("Ghost.vanished-symphony") []
      SequencePriority.NORMAL (Or.inl rfl)).2.2.1⟩

/-- C5: for every admitted call (sequence found, not a duplicate, conflict
resolution not "reject"), `startSequence`, in order: records the queued
statistic, enqueues the built request, triggers a queue drain if the
executor is idle, emits `SEQUENCE_QUEUED` carrying
`{sequenceName, requestId, priority, queueLength}`, and returns
`{requestId, success:true}`. -/
theorem C5_admitted_pipeline (env : Env) (st : OrchestratorState) (sequenceName : String)
    (data : RecordData) (priority : SequencePriority) (seq : MusicalSequence)
    (hreg : registryGet st.registry sequenceName = some seq)
    (hdup : (deduplicateSequenceRequest env.now st.dedupWindow sequenceName data
      priority).isDuplicate = false)
    (hrej : (checkResourceConflicts env (extractOrchestrationMetadata env sequenceName data)
      priority).resolution ≠ Resolution.REJECT) :
    startSequence env st sequenceName data priority =
      (let requestId := generateRequestId env sequenceName
       let sequenceRequest := createSequenceRequest env sequenceName data priority requestId
         (extractOrchestrationMetadata env sequenceName data)
         (checkResourceConflicts env (extractOrchestrationMetadata env sequenceName data) priority)
         (deduplicateSequenceRequest env.now st.dedupWindow sequenceName data priority).hash
       let q1 := st.queue.enqueue sequenceRequest
       let ev := BusEvent.sequenceQueued sequenceName requestId priority q1.size
       ({ st with
          stats := recordSequenceQueued st.stats
          queue := q1
          busLog := st.busLog ++ [ev] },
        [Action.statRecordQueued, Action.enqueued sequenceRequest] ++
          (if st.running then [] else [Action.drainTriggered]) ++ [Action.emitted ev],
        { requestId := requestId, success := true })) := by
  simp [startSequence, hreg, hdup, hrej]

/-- C5 witness: the admitted pipeline at a concrete fresh call; the returned
request id is the generated `<name>-<now>-<rand>` and the call reports
success. -/
theorem C5_admitted_pipeline_witness :
    registryGet stC5.registry ("Demo.ping-symphony") = some { name := "Demo.ping-symphony" } ∧
    (deduplicateSequenceRequest envC5.now stC5.dedupWindow ("Demo.ping-symphony") []
      SequencePriority.NORMAL).isDuplicate = false ∧
    (startSequence envC5 stC5 ("Demo.ping-symphony") [] SequencePriority.NORMAL).2.2 =
      { requestId := "Demo.ping-symphony-7-r5", success := true } :=
  ⟨rfl, rfl, by
    rw [C5_admitted_pipeline envC5 stC5 ("Demo.ping-symphony") [] SequencePriority.NORMAL
      { name := "Demo.ping-symphony" } rfl rfl (by decide)]
    decide⟩

/-- C6: the drainer never hands a request to the executor while a sequence
is already running: whenever the executor reports a running sequence or the
queue is empty, `processSequenceQueue` dequeues nothing, mutates no state,
and returns `{processed:false}` - so a drain can only start an execution
from the idle state, and executions never overlap. -/
theorem C6_drainer_guard (exec : Executor) (now : Nat) (st : OrchestratorState)
    (h : st.queue.isEmpty = true ∨ st.running = true) :
    processSequenceQueue exec now st = (st, [], { processed := false }) :=
  processSequenceQueue_noop exec now st h

/-- C6 witness: with the executor busy and a request waiting in the queue,
the drain call is a no-op. -/
theorem C6_drainer_guard_witness :
    stC6.running = true ∧
    (stC6.queue).isEmpty = false ∧
    processSequenceQueue execAlwaysOk 9 stC6 = (stC6, [], { processed := false }) :=
  ⟨rfl, rfl, C6_drainer_guard execAlwaysOk 9 stC6 (Or.inr rfl)⟩

/-- C7 counterexample: when the executor rejects a dequeued request, the
drainer returns the failure in its result but emits nothing on the event
bus, refuting the claimed conversion of the rejection into a
`SEQUENCE_FAILED` bus event. -/
theorem C7_counterexample_no_sequence_failed_event :
    ((processSequenceQueue execAlwaysFails 5 stC7).1).busLog = [] ∧
    (processSequenceQueue execAlwaysFails 5 stC7).2.2 =
      { processed := true, sequenceName := some ("Demo.fail-symphony"),
        success := some false, error := some ("handler exploded") } := by
  rw [processSequenceQueue_step execAlwaysFails 5 stC7 rfl rfl]
  simp only [show registryGet stC7.registry reqC7.sequenceName
      = some { name := "Demo.fail-symphony" } from rfl,
    show execAlwaysFails reqC7 { name := "Demo.fail-symphony" }
      = Except.error ("handler exploded") from rfl]
  refine ⟨?_, by trivial⟩
  rw [drain_busLog_unchanged]
  rfl

/-- C7 (amended): for every dequeued request whose execution rejects, the
drainer does not propagate the exception - it is a total function returning
`{processed:true, success:false, error:<message>}` for that request - and it
continues draining the remaining queue (the queue is empty afterwards); the
rejection is not converted into a bus event. -/
theorem C7_executor_failure_contained (exec : Executor) (now : Nat) (st : OrchestratorState)
    (req : SequenceRequest) (q1 : ExecutionQueue) (seq : MusicalSequence) (msg : String)
    (hrun : st.running = false)
    (hdq : st.queue.dequeue = some (req, q1))
    (hreg : registryGet st.registry req.sequenceName = some seq)
    (hexec : exec req seq = Except.error msg) :
    (processSequenceQueue exec now st).2.2 =
      { processed := true, sequenceName := some req.sequenceName,
        success := some false, error := some msg } ∧
    ((processSequenceQueue exec now st).1).busLog = st.busLog ∧
    (((processSequenceQueue exec now st).1).queue).isEmpty = true := by
  rw [processSequenceQueue_step exec now st hrun hdq]
  simp only [hreg, hexec]
  refine ⟨by trivial, ?_, ?_⟩
  · exact drain_busLog_unchanged exec now _
  · exact drain_empties_queue exec now _ hrun

/-- C7 witness: the amended behaviour at a concrete one-element queue whose
execution rejects with "handler exploded". -/
theorem C7_executor_failure_witness :
    stC7.running = false ∧
    stC7.queue.dequeue = some (reqC7, emptyQueue) ∧
    registryGet stC7.registry reqC7.sequenceName = some { name := "Demo.fail-symphony" } ∧
    execAlwaysFails reqC7 { name := "Demo.fail-symphony" } = Except.error ("handler exploded") ∧
    (processSequenceQueue execAlwaysFails 5 stC7).2.2 =
      { processed := true, sequenceName := some reqC7.sequenceName,
        success := some false, error := some ("handler exploded") } :=
  ⟨rfl, rfl, rfl, rfl,
    (C7_executor_failure_contained execAlwaysFails 5 stC7 reqC7 emptyQueue
      { name := "Demo.fail-symphony" } ("handler exploded") rfl rfl rfl rfl).1⟩

/-- C8: for every admitted request, the stored data is the caller's data
shallow-merged with the orchestration keys `instanceId`, `symphonyName`,
`resourceId`, `conflictResult` and `sequenceHash` placed inside the data
object; these five keys overwrite any same-named caller keys, and every
other caller key is preserved unchanged. -/
theorem C8_request_data_shallow_merge (env : Env) (sequenceName : String) (data : RecordData)
    (priority : SequencePriority) (requestId : String) (metadata : OrchestrationMetadata)
    (conflictResult : ResourceConflictResult) (sequenceHash : String) :
    lookupKey (requestDataOf env sequenceName data priority requestId metadata conflictResult
        sequenceHash) ("instanceId") = some (Value.vStr metadata.instanceId) ∧
    lookupKey (requestDataOf env sequenceName data priority requestId metadata conflictResult
        sequenceHash) ("symphonyName") = some (Value.vStr metadata.symphonyName) ∧
    lookupKey (requestDataOf env sequenceName data priority requestId metadata conflictResult
        sequenceHash) ("resourceId") = some (Value.vStr metadata.resourceId) ∧
    lookupKey (requestDataOf env sequenceName data priority requestId metadata conflictResult
        sequenceHash) ("conflictResult") = some (Value.vConflict conflictResult) ∧
    lookupKey (requestDataOf env sequenceName data priority requestId metadata conflictResult
        sequenceHash) ("sequenceHash") = some (Value.vStr sequenceHash) ∧
    (∀ k, k ≠ "instanceId" → k ≠ "symphonyName" → k ≠ "resourceId" →
      k ≠ "conflictResult" → k ≠ "sequenceHash" →
      lookupKey (requestDataOf env sequenceName data priority requestId metadata conflictResult
        sequenceHash) k = lookupKey data k) := by
  unfold requestDataOf createSequenceRequest
  refine ⟨?_, ?_, ?_, ?_, ?_, ?_⟩
  · rw [lookupKey_setKey_ne _ _ _ _ (by decide), lookupKey_setKey_ne _ _ _ _ (by decide),
      lookupKey_setKey_ne _ _ _ _ (by decide), lookupKey_setKey_ne _ _ _ _ (by decide),
      lookupKey_setKey_self]
  · rw [lookupKey_setKey_ne _ _ _ _ (by decide), lookupKey_setKey_ne _ _ _ _ (by decide),
      lookupKey_setKey_ne _ _ _ _ (by decide), lookupKey_setKey_self]
  · rw [lookupKey_setKey_ne _ _ _ _ (by decide), lookupKey_setKey_ne _ _ _ _ (by decide),
      lookupKey_setKey_self]
  · rw [lookupKey_setKey_ne _ _ _ _ (by decide), lookupKey_setKey_self]
  · rw [lookupKey_setKey_self]
  · intro k h1 h2 h3 h4 h5
    rw [lookupKey_setKey_ne _ _ _ _ h5, lookupKey_setKey_ne _ _ _ _ h4,
      lookupKey_setKey_ne _ _ _ _ h3, lookupKey_setKey_ne _ _ _ _ h2,
      lookupKey_setKey_ne _ _ _ _ h1]

/-- C8 witness: the merge at a concrete call whose caller data holds an
unrelated key (preserved) and a caller-supplied `instanceId` (overwritten by
the orchestration value). -/
theorem C8_request_data_shallow_merge_witness :
    lookupKey (requestDataOf envC8 ("Demo.x-symphony") dataC8 SequencePriority.NORMAL ("rq8")
      mdC8 crC8 ("h8")) ("instanceId") = some (Value.vStr mdC8.instanceId) ∧
    lookupKey dataC8 ("instanceId") = some (Value.vStr "caller") ∧
    lookupKey (requestDataOf envC8 ("Demo.x-symphony") dataC8 SequencePriority.NORMAL ("rq8")
      mdC8 crC8 ("h8")) ("userKey") = lookupKey dataC8 ("userKey") ∧
    lookupKey dataC8 ("userKey") = some (Value.vInt 5) :=
  ⟨(C8_request_data_shallow_merge envC8 ("Demo.x-symphony") dataC8 SequencePriority.NORMAL
      ("rq8") mdC8 crC8 ("h8")).1,
   rfl,
   (C8_request_data_shallow_merge envC8 ("Demo.x-symphony") dataC8 SequencePriority.NORMAL
      ("rq8") mdC8 crC8 ("h8")).2.2.2.2.2 ("userKey") (by decide) (by decide) (by decide)
      (by decide) (by decide),
   rfl⟩

/-- C9: admission is atomic on failure - since the model's bus emission is a
pure state extension (`eventBus.emit` does not throw), every `startSequence`
call returning `{success:false}` (duplicate, sequence not found, or resource
rejection) leaves the execution queue untouched, leaves the queued counter
untouched, performs no enqueue action and no queued-statistic action. -/
theorem C9_failed_admission_is_frame (env : Env) (st : OrchestratorState)
    (sequenceName : String) (data : RecordData) (priority : SequencePriority)
    (hfail : (startSequence env st sequenceName data priority).2.2.success = false) :
    ((startSequence env st sequenceName data priority).1).queue = st.queue ∧
    ((startSequence env st sequenceName data priority).1).stats.queued = st.stats.queued ∧
    Action.statRecordQueued ∉ (startSequence env st sequenceName data priority).2.1 ∧
    (∀ r : SequenceRequest,
      Action.enqueued r ∉ (startSequence env st sequenceName data priority).2.1) := by
  cases hreg : registryGet st.registry sequenceName with
  | none => simp [startSequence, hreg, recordError]
  | some seq =>
    by_cases hdup : (deduplicateSequenceRequest env.now st.dedupWindow sequenceName data
      priority).isDuplicate = true
    · simp [startSequence, hreg, hdup, handleDuplicateSequence]
    · have hdup2 : (deduplicateSequenceRequest env.now st.dedupWindow sequenceName data
        priority).isDuplicate = false := by
        revert hdup
        cases (deduplicateSequenceRequest env.now st.dedupWindow sequenceName data
          priority).isDuplicate <;> simp
      by_cases hrej : (checkResourceConflicts env
        (extractOrchestrationMetadata env sequenceName data) priority).resolution
        = Resolution.REJECT
      · simp [startSequence, hreg, hdup2, hrej, recordError]
      · simp [startSequence, hreg, hdup2, hrej] at hfail

/-- C9 witness: the frame condition at a concrete failed call (sequence
missing from an empty registry). -/
theorem C9_failed_admission_witness :
    (startSequence envC9 stC9 ("Nope.symphony") [] SequencePriority.NORMAL).2.2.success
      = false ∧
    ((startSequence envC9 stC9 ("Nope.symphony") [] SequencePriority.NORMAL).1).queue
      = stC9.queue :=
  ⟨rfl,
    (C9_failed_admission_is_frame envC9 stC9 ("Nope.symphony") [] SequencePriority.NORMAL
      rfl).1⟩

/-- C10: for every request whose sequence is present in the registry,
`createExecutionContext` returns a context whose executionType is IMMEDIATE
exactly when the request's priority is HIGH and CONSECUTIVE otherwise; when
the sequence is absent it throws instead of returning a context. -/
theorem C10_execution_context_type (registry : Registry) (r : SequenceRequest) :
    (∀ seq, registryGet registry r.sequenceName = some seq →
      ∃ ctx, createExecutionContext registry r = Except.ok ctx ∧
        (ctx.executionType = ExecutionType.IMMEDIATE ↔ r.priority = SequencePriority.HIGH) ∧
        (r.priority ≠ SequencePriority.HIGH →
          ctx.executionType = ExecutionType.CONSECUTIVE) ∧
        ctx.sequence = seq ∧ ctx.priority = r.priority) ∧
    (registryGet registry r.sequenceName = none →
      createExecutionContext registry r =
        Except.error ("Sequence " ++ r.sequenceName ++ " not found")) := by
  constructor
  · intro seq hreg
    refine ⟨{ requestId := r.requestId
              sequenceName := r.sequenceName
              data := r.data
              sequence := seq
              executionType := if r.priority = SequencePriority.HIGH then
                ExecutionType.IMMEDIATE else ExecutionType.CONSECUTIVE
              priority := r.priority }, ?_, ?_, ?_, rfl, rfl⟩
    · simp [createExecutionContext, buildBaseContext, hreg]
    · by_cases hp : r.priority = SequencePriority.HIGH <;> simp [hp]
    · intro hp
      simp [hp]
  · intro hreg
    simp [createExecutionContext, buildBaseContext, hreg]

/-- C10 witness: a HIGH request yields an IMMEDIATE context, a NORMAL
request yields a CONSECUTIVE context, and a missing sequence yields an
error. -/
theorem C10_execution_context_type_witness :
    registryGet regC10 reqC10.sequenceName = some { name := "Demo.ping-symphony" } ∧
    (∃ ctx, createExecutionContext regC10 reqC10 = Except.ok ctx ∧
      (ctx.executionType = ExecutionType.IMMEDIATE ↔ reqC10.priority = SequencePriority.HIGH)) ∧
    (∃ ctx2, createExecutionContext regC10 reqC10b = Except.ok ctx2 ∧
      (reqC10b.priority ≠ SequencePriority.HIGH →
        ctx2.executionType = ExecutionType.CONSECUTIVE)) ∧
    createExecutionContext [] reqC10 =
      Except.error ("Sequence " ++ reqC10.sequenceName ++ " not found") :=
  ⟨rfl,
   (fun h => ⟨h.choose, h.choose_spec.1, h.choose_spec.2.1⟩)
     ((C10_execution_context_type regC10 reqC10).1 { name := "Demo.ping-symphony" } rfl),
   (fun h => ⟨h.choose, h.choose_spec.1, h.choose_spec.2.2.1⟩)
     ((C10_execution_context_type regC10 reqC10b).1 { name := "Demo.ping-symphony" } rfl),
   (C10_execution_context_type [] reqC10).2 rfl⟩

end MusicalConductor
